import Mathlib

/-
Verification of the batch-export coordination core
(posthog/batch_exports/service.py and posthog/temporal/workflows/base.py).

The Python functions are shallowly embedded as pure Lean functions over an
explicit relational-store state (the Django ORM rows) and an explicit
workflow-engine state (the Temporal client, an external collaborator whose
logical operations CreateSchedule / PauseSchedule / UnpauseSchedule /
DeleteSchedule / DescribeSchedule / ExecuteWorkflow are modelled from the
spec, section 6). Timestamps and UUIDs are opaque strings; run primary keys
are naturals handed out by the store. Raised Python exceptions become
explicit error values.
-/

namespace BatchExports

/-- Status choice strings of the BatchExportRun model.
Modelled from the spec: posthog/batch_exports/models.py is not in the
excerpt; the spec (section 3) lists the five statuses, and service.py
refers to BatchExportRun.Status.STARTING. -/
def STARTING : String := "Starting"

/-- Terminal status COMPLETED, modelled from the spec (section 3). -/
def COMPLETED : String := "Completed"

/-- Terminal status FAILED, modelled from the spec (section 3). -/
def FAILED : String := "Failed"

/-- Terminal status CANCELLED, modelled from the spec (section 3). -/
def CANCELLED : String := "Cancelled"

/-- Non-terminal status RUNNING, modelled from the spec (section 3). -/
def RUNNING : String := "Running"

/-- A destination embedded in a BatchExport: a type tag plus an opaque
configuration mapping (spec section 3; used by service.py as
batch_export.destination.type / .id / .config). -/
structure Destination where
  dId : String
  dType : String
  config : List (String × String)
deriving Repr, DecidableEq

/-- A BatchExport definition row. Modelled from the spec (section 3):
models.py is not in the excerpt; service.py reads .id, .pk, .team.id,
.team.name, .paused and .destination. The Django pk of a BatchExport is
its id. -/
structure BatchExport where
  id : String
  teamId : Nat
  teamName : String
  destination : Destination
  paused : Bool
deriving Repr, DecidableEq

/-- A BatchExportRun row. Modelled from the spec (section 3): models.py is
not in the excerpt; service.py writes team, batch_export_id, workflow_id,
run_id, status, data_interval_start and data_interval_end, and the store
assigns the primary key pk. Fields that a given write path leaves unset
are Option none. -/
structure BatchExportRun where
  pk : Nat
  batchExportId : String
  teamId : Option Nat
  workflowId : Option String
  runId : Option String
  status : Option String
  dataIntervalStart : Option String
  dataIntervalEnd : Option String
deriving Repr, DecidableEq

/-- The relational store: team ids, BatchExport rows, BatchExportRun rows,
and the next primary key the store will assign to a created run. -/
structure Store where
  teams : List Nat
  batchExports : List BatchExport
  runs : List BatchExportRun
  nextRunPk : Nat
deriving Repr, DecidableEq

/-- The input dataclass passed to a destination workflow
(S3BatchExportInputs in service.py): the team_id field (which the backfill
path fills with batch_export.pk and the schedule path fills with
batch_export.team.id, hence a string here), the batch export id, the
optional data_interval_end, and the opaque destination configuration
merged in via the double-star expansion. The dataclass has no
data_interval_start field. -/
structure WorkflowInputs where
  teamIdField : String
  batchExportId : String
  dataIntervalEnd : Option String
  config : List (String × String)
deriving Repr, DecidableEq

/-- One direct workflow-execution request issued to the engine
(temporal.execute_workflow in backfill_export). -/
structure WorkflowExecution where
  workflow : String
  inputs : WorkflowInputs
  taskQueue : String
  execId : String
deriving Repr, DecidableEq

/-- A recurring schedule registered with the engine: the action workflow
and its inputs, the action id, the task queue, the paused state and the
note (ScheduleActionStartWorkflow plus ScheduleState in
create_batch_export). -/
structure ScheduleEntry where
  workflow : String
  inputs : WorkflowInputs
  actionId : String
  taskQueue : String
  paused : Bool
  note : String
deriving Repr, DecidableEq

/-- The workflow-engine state. Modelled from the spec (section 6): the
engine is an external collaborator; it stores schedules by id and we keep
request logs of the pause, unpause, delete and execute calls the core
issues, so theorems can count issued requests. -/
structure Engine where
  schedules : List (String × ScheduleEntry)
  pauseRequests : List (String × Option String)
  unpauseRequests : List (String × Option String)
  deleteRequests : List String
  executions : List WorkflowExecution
deriving Repr, DecidableEq

/-- Errors raised by the embedded operations. Each constructor models a
concrete Python exception: unknownDestinationType the KeyError on the
DESTINATION_WORKFLOWS lookup, runNotFoundValueError the ValueError raised
in update_batch_export_run_status, batchExportDoesNotExist and
teamDoesNotExist the Django DoesNotExist of objects.get,
scheduleAlreadyExists and scheduleNotFound the engine-reported schedule
conflicts (spec section 7), and engineError an error raised by an engine
call and propagated unchanged. -/
inductive SvcError where
  | unknownDestinationType (tag : String)
  | runNotFoundValueError (pk : Nat)
  | batchExportDoesNotExist (id : String)
  | teamDoesNotExist (id : Nat)
  | scheduleAlreadyExists (id : String)
  | scheduleNotFound (id : String)
  | engineError (msg : String)
deriving Repr, DecidableEq

/-- Outcome oracle for one network call to the engine: the call either
succeeds or raises an engine-side error with the given message. -/
inductive EngineCall where
  | ok
  | fail (msg : String)
deriving Repr, DecidableEq

/-- settings.TEMPORAL_TASK_QUEUE, an opaque configuration string. -/
def TEMPORAL_TASK_QUEUE : String := "general-purpose-task-queue"

/-- The Destination Workflow Registry (DESTINATION_WORKFLOWS in
service.py): a static mapping from a destination type tag to the workflow
identifier. The single registered entry maps S3 to the s3-export workflow
with S3BatchExportInputs as input constructor; the constructor itself is
embedded uniformly as WorkflowInputs. -/
def DESTINATION_WORKFLOWS : List (String × String) := [("S3", "s3-export")]

/-- Registry lookup: the workflow identifier for a destination type tag,
none when the tag is not registered (a KeyError in Python). -/
def lookupWorkflow (tag : String) : Option String :=
  (DESTINATION_WORKFLOWS.find? fun p => decide (p.1 = tag)).map Prod.snd

/-- The engine operation CreateSchedule (create_schedule in service.py,
awaiting temporal.create_schedule). Modelled from the spec (sections 6 and
7): registering an id the engine already holds fails with
ScheduleAlreadyExists; otherwise the schedule is stored under the id. -/
def create_schedule (eng : Engine) (id : String) (entry : ScheduleEntry) :
    Engine × Option SvcError :=
  if (eng.schedules.find? fun p => decide (p.1 = id)).isSome then
    (eng, some (.scheduleAlreadyExists id))
  else
    ({ eng with schedules := eng.schedules ++ [(id, entry)] }, none)

/-- The engine operation PauseSchedule (pause_schedule in service.py,
awaiting handle.pause). Modelled from the spec (section 6). On success the
request is recorded and the stored schedule with that id is marked paused;
on failure the engine error is raised and the engine state is unchanged. -/
def pause_schedule (eng : Engine) (call : EngineCall) (schedule_id : String)
    (note : Option String) : Engine × Option SvcError :=
  match call with
  | .ok =>
    ({ eng with
        schedules := eng.schedules.map fun p =>
          if p.1 = schedule_id then (p.1, { p.2 with paused := true }) else p,
        pauseRequests := eng.pauseRequests ++ [(schedule_id, note)] }, none)
  | .fail msg => (eng, some (.engineError msg))

/-- The engine operation UnpauseSchedule (unpause_schedule in service.py,
awaiting handle.unpause). Modelled from the spec (section 6), symmetric to
pause_schedule. -/
def unpause_schedule (eng : Engine) (call : EngineCall) (schedule_id : String)
    (note : Option String) : Engine × Option SvcError :=
  match call with
  | .ok =>
    ({ eng with
        schedules := eng.schedules.map fun p =>
          if p.1 = schedule_id then (p.1, { p.2 with paused := false }) else p,
        unpauseRequests := eng.unpauseRequests ++ [(schedule_id, note)] }, none)
  | .fail msg => (eng, some (.engineError msg))

/-- The engine operation DeleteSchedule (delete_schedule in service.py,
awaiting handle.delete). Modelled from the spec (section 6): the schedule
stored under exactly the given id is removed and the request recorded. -/
def delete_schedule (eng : Engine) (schedule_id : String) : Engine :=
  { eng with
      schedules := eng.schedules.filter fun p => decide (¬ p.1 = schedule_id),
      deleteRequests := eng.deleteRequests ++ [schedule_id] }

/-- The engine operation DescribeSchedule (describe_schedule in
service.py, awaiting handle.describe). Modelled from the spec (section 6):
a read-only passthrough returning the engine view of the schedule stored
under exactly the given id. -/
def describe_schedule (eng : Engine) (schedule_id : String) :
    Except SvcError ScheduleEntry :=
  match eng.schedules.find? fun p => decide (p.1 = schedule_id) with
  | none => .error (.scheduleNotFound schedule_id)
  | some p => .ok p.2

/-- pause_batch_export from service.py: first the local write
BatchExport.objects.filter(id=batch_export_id).update(paused=True) — a
bulk update touching every row whose id matches, with the affected-row
count discarded — then pause_schedule on the engine with the same id. An
engine failure propagates after the local write already happened. -/
def pause_batch_export (st : Store) (eng : Engine) (call : EngineCall)
    (batch_export_id : String) (note : Option String) :
    Store × Engine × Option SvcError :=
  let st2 := { st with
    batchExports := st.batchExports.map fun be =>
      if be.id = batch_export_id then { be with paused := true } else be }
  let res := pause_schedule eng call batch_export_id note
  (st2, res.1, res.2)

/-- unpause_batch_export from service.py: the symmetric two-step write,
setting the local paused flag to False and then unpause_schedule on the
engine with the same id. -/
def unpause_batch_export (st : Store) (eng : Engine) (call : EngineCall)
    (batch_export_id : String) (note : Option String) :
    Store × Engine × Option SvcError :=
  let st2 := { st with
    batchExports := st.batchExports.map fun be =>
      if be.id = batch_export_id then { be with paused := false } else be }
  let res := unpause_schedule eng call batch_export_id note
  (st2, res.1, res.2)

/-- backfill_export from service.py: looks up the BatchExport
(objects.get, DoesNotExist when absent), immediately creates a
BatchExportRun row carrying the requested interval (objects.create — the
store assigns the next pk; workflow id, run id and status are left
unset), then resolves the destination workflow in DESTINATION_WORKFLOWS
(KeyError when the tag is unregistered — the created row is not rolled
back), and finally issues one execute_workflow request whose inputs carry
team_id=batch_export.pk, the batch export id, data_interval_end and the
destination configuration, with execution id str(backfill_run.pk).
Returns the created run. -/
def backfill_export (st : Store) (eng : Engine) (batch_export_id : String)
    (start_at end_at : Option String) :
    Store × Engine × Except SvcError BatchExportRun :=
  match st.batchExports.find? fun be => decide (be.id = batch_export_id) with
  | none => (st, eng, .error (.batchExportDoesNotExist batch_export_id))
  | some be =>
    let backfill_run : BatchExportRun := {
      pk := st.nextRunPk, batchExportId := be.id, teamId := none,
      workflowId := none, runId := none, status := none,
      dataIntervalStart := start_at, dataIntervalEnd := end_at }
    let st2 := { st with runs := st.runs ++ [backfill_run],
                         nextRunPk := st.nextRunPk + 1 }
    match lookupWorkflow be.destination.dType with
    | none => (st2, eng, .error (.unknownDestinationType be.destination.dType))
    | some workflow =>
      let inputs : WorkflowInputs := {
        teamIdField := be.id,
        batchExportId := batch_export_id,
        dataIntervalEnd := end_at,
        config := be.destination.config }
      let eng2 := { eng with executions := eng.executions ++
        [{ workflow := workflow, inputs := inputs,
           taskQueue := TEMPORAL_TASK_QUEUE,
           execId := toString backfill_run.pk }] }
      (st2, eng2, .ok backfill_run)

/-- create_batch_export_run from service.py: fetches the Team
(objects.get, DoesNotExist when absent), builds a fresh BatchExportRun
instance with status STARTING and the given workflow id, run id and
interval, and saves it — an unconditional insert of a new row with a
store-assigned pk; no lookup of an existing (workflow_id, run_id) row is
performed. Returns the created run. -/
def create_batch_export_run (st : Store) (team_id : Nat)
    (workflow_id run_id : String) (batch_export_id : String)
    (data_interval_start data_interval_end : String) :
    Store × Except SvcError BatchExportRun :=
  if st.teams.contains team_id then
    let run : BatchExportRun := {
      pk := st.nextRunPk, batchExportId := batch_export_id,
      teamId := some team_id, workflowId := some workflow_id,
      runId := some run_id, status := some STARTING,
      dataIntervalStart := some data_interval_start,
      dataIntervalEnd := some data_interval_end }
    ({ st with runs := st.runs ++ [run], nextRunPk := st.nextRunPk + 1 },
     .ok run)
  else
    (st, .error (.teamDoesNotExist team_id))

/-- update_batch_export_run_status from service.py: the bulk update
BatchExportRun.objects.filter(id=run_id).update(status=status) sets the
status of every row whose pk matches — with no condition on the current
status — and returns the affected-row count; when that count is zero the
ValueError (run not found) is raised. No row is ever created. -/
def update_batch_export_run_status (st : Store) (run_id : Nat)
    (status : String) : Store × Option SvcError :=
  let updated := st.runs.countP fun r => decide (r.pk = run_id)
  ({ st with runs := st.runs.map fun r =>
      if r.pk = run_id then { r with status := some status } else r },
   if updated = 0 then some (.runNotFoundValueError run_id) else none)

/-- create_batch_export from service.py: resolves the destination workflow
in DESTINATION_WORKFLOWS (KeyError when unregistered), builds the
ScheduleState with paused equal to batch_export.paused and the schedule
action with workflow inputs for team_id=batch_export.team.id and
batch_export_id=str(batch_export.id), and issues create_schedule to the
engine under id str(batch_export.id), with the action id also
str(batch_export.id). The schedule entry built for a BatchExport and its
resolved workflow (the ScheduleActionStartWorkflow plus ScheduleState
constructed inside create_batch_export): -/
def scheduleEntryFor (be : BatchExport) (workflow : String) : ScheduleEntry :=
  { workflow := workflow,
    inputs := { teamIdField := toString be.teamId,
                batchExportId := be.id,
                dataIntervalEnd := none,
                config := be.destination.config },
    actionId := be.id,
    taskQueue := TEMPORAL_TASK_QUEUE,
    paused := be.paused,
    note := "Schedule created for BatchExport " ++ be.id ++
      " to Destination " ++ be.destination.dId ++ " in Team " ++
      toString be.teamId ++ "." }

/-- create_batch_export itself: registry lookup, then create_schedule on
the engine under id str(batch_export.id) with the entry above. -/
def create_batch_export (eng : Engine) (be : BatchExport) :
    Engine × Option SvcError :=
  match lookupWorkflow be.destination.dType with
  | none => (eng, some (.unknownDestinationType be.destination.dType))
  | some workflow => create_schedule eng be.id (scheduleEntryFor be workflow)

/-- Number of run rows in the store carrying the given workflow id and
workflow run id pair. -/
def runsMatching (st : Store) (wf r : String) : Nat :=
  st.runs.countP fun x =>
    decide (x.workflowId = some wf ∧ x.runId = some r)

/-- Mapping a function that fixes every element of a list leaves the list
unchanged. -/
theorem map_eq_self_of {α : Type} (l : List α) (f : α → α)
    (h : ∀ a ∈ l, f a = a) : l.map f = l := by
  induction l with
  | nil => rfl
  | cons x xs ih =>
    rw [List.map_cons, h x (List.mem_cons_self x xs),
        ih fun a ha => h a (List.mem_cons_of_mem x ha)]

/-- A store with one team and no rows, used as a concrete input. -/
def c1Store : Store := { teams := [1], batchExports := [], runs := [], nextRunPk := 0 }

/-- Claim C1 counterexample: calling create_batch_export_run twice with
the same (workflow_id, run_id) pair and otherwise identical arguments
leaves two run rows carrying that pair in the store, not one — the second
call inserts a sibling row instead of observing the existing record. -/
theorem c1_counterexample :
    runsMatching
      (create_batch_export_run
        (create_batch_export_run c1Store 1 "wf-1" "run-1" "E1"
          "2023-01-01T00:00:00" "2023-01-02T00:00:00").1
        1 "wf-1" "run-1" "E1"
        "2023-01-01T00:00:00" "2023-01-02T00:00:00").1
      "wf-1" "run-1" = 2 := by decide

/-- Claim C1 as amended: calling create_batch_export_run twice with the
same (workflow_id, run_id) pair and otherwise identical arguments inserts
two run rows carrying that pair — the store write performs no
deduplication on the pair. -/
theorem c1_create_run_twice (st : Store) (team : Nat) (wf r be s e : String)
    (h : st.teams.contains team = true) :
    runsMatching
      (create_batch_export_run
        (create_batch_export_run st team wf r be s e).1
        team wf r be s e).1 wf r
      = runsMatching st wf r + 2 := by
  simp only [create_batch_export_run, h, if_pos, runsMatching]
  simp [List.countP_append]

/-- Claim C1 witness: the amended theorem evaluated at the concrete
store. -/
theorem c1_create_run_twice_witness :
    c1Store.teams.contains 1 = true ∧
    runsMatching
      (create_batch_export_run
        (create_batch_export_run c1Store 1 "w" "r" "E" "a" "b").1
        1 "w" "r" "E" "a" "b").1 "w" "r"
      = runsMatching c1Store "w" "r" + 2 :=
  ⟨rfl, c1_create_run_twice c1Store 1 "w" "r" "E" "a" "b" rfl⟩

/-- A run row already in the terminal status COMPLETED, used as a
concrete input. -/
def c2Run : BatchExportRun :=
  { pk := 0, batchExportId := "E1", teamId := some 1,
    workflowId := some "wf-1", runId := some "run-1",
    status := some COMPLETED, dataIntervalStart := none,
    dataIntervalEnd := none }

/-- A store holding one run that is already COMPLETED. -/
def c2Store : Store :=
  { teams := [1], batchExports := [], runs := [c2Run], nextRunPk := 1 }

/-- Claim C2 counterexample: updating a run whose stored status is the
terminal COMPLETED succeeds without error and overwrites the status with
RUNNING — the update is applied, not treated as a no-op. -/
theorem c2_counterexample :
    (update_batch_export_run_status c2Store 0 RUNNING).2 = none ∧
    ((update_batch_export_run_status c2Store 0 RUNNING).1.runs.map
      fun r => r.status) = [some RUNNING] := by
  constructor <;> rfl

/-- Claim C2 as amended: for an existing run, update_batch_export_run_status
sets the stored status to the given value unconditionally — the update is
filtered only by the run id, with no guard on the current status, so a
terminal status is overwritten like any other. -/
theorem c2_update_unconditional (st : Store) (k : Nat) (s : String)
    (h : st.runs.countP (fun r => decide (r.pk = k)) ≠ 0) :
    (update_batch_export_run_status st k s).2 = none ∧
    ∀ r ∈ (update_batch_export_run_status st k s).1.runs,
      r.pk = k → r.status = some s := by
  refine ⟨by simp [update_batch_export_run_status, h], ?_⟩
  intro r hr hk
  simp only [update_batch_export_run_status, List.mem_map] at hr
  obtain ⟨a, ha, hra⟩ := hr
  by_cases hc : a.pk = k
  · rw [← hra]
    simp [hc]
  · rw [← hra] at hk
    simp only [if_neg hc] at hk
    exact absurd hk hc

/-- Claim C2 witness: the amended theorem evaluated at the concrete store
holding a COMPLETED run. -/
theorem c2_update_unconditional_witness :
    c2Store.runs.countP (fun r => decide (r.pk = 0)) ≠ 0 ∧
    ((update_batch_export_run_status c2Store 0 FAILED).2 = none ∧
     ∀ r ∈ (update_batch_export_run_status c2Store 0 FAILED).1.runs,
       r.pk = 0 → r.status = some FAILED) :=
  ⟨by decide, c2_update_unconditional c2Store 0 FAILED (by decide)⟩

/-- An empty store, used as a concrete input for the missing-run case. -/
def c6Store : Store := { teams := [], batchExports := [], runs := [], nextRunPk := 0 }

/-- Claim C6: update_batch_export_run_status on a run id matching no row
raises the run-not-found ValueError — the zero-rows-affected outcome is
detected, never a silent success — and leaves the store unchanged, in
particular creating no row. -/
theorem c6_update_nonexistent (st : Store) (k : Nat) (s : String)
    (h : st.runs.countP (fun r => decide (r.pk = k)) = 0) :
    (update_batch_export_run_status st k s).2
      = some (.runNotFoundValueError k) ∧
    (update_batch_export_run_status st k s).1 = st := by
  have hall : ∀ r ∈ st.runs, ¬ (r.pk = k) := by
    intro r hr
    have := List.countP_eq_zero.mp h r hr
    simpa using this
  constructor
  · simp [update_batch_export_run_status, h]
  · simp only [update_batch_export_run_status]
    rw [map_eq_self_of _ _ fun a ha => if_neg (hall a ha)]

/-- Claim C6 witness: the theorem evaluated at the empty store. -/
theorem c6_update_nonexistent_witness :
    c6Store.runs.countP (fun r => decide (r.pk = 5)) = 0 ∧
    ((update_batch_export_run_status c6Store 5 COMPLETED).2
       = some (.runNotFoundValueError 5) ∧
     (update_batch_export_run_status c6Store 5 COMPLETED).1 = c6Store) :=
  ⟨rfl, c6_update_nonexistent c6Store 5 COMPLETED rfl⟩

/-- An engine holding no schedules and with empty request logs. -/
def emptyEngine : Engine :=
  { schedules := [], pauseRequests := [], unpauseRequests := [],
    deleteRequests := [], executions := [] }

/-- A BatchExport whose destination type tag BigQuery is not registered in
DESTINATION_WORKFLOWS. -/
def c3Export : BatchExport :=
  { id := "E1", teamId := 1, teamName := "team-1",
    destination := { dId := "D1", dType := "BigQuery", config := [] },
    paused := false }

/-- A store holding the unregistered-destination BatchExport. -/
def c3Store : Store :=
  { teams := [1], batchExports := [c3Export], runs := [], nextRunPk := 0 }

/-- Claim C3 counterexample: backfill on a BatchExport whose destination
type is unregistered does fail with the unknown-destination error, but a
run record created by that very call remains in the store — the record is
created before the registry lookup and is not rolled back. -/
theorem c3_counterexample :
    (backfill_export c3Store emptyEngine "E1" none none).2.2
      = .error (.unknownDestinationType "BigQuery") ∧
    (backfill_export c3Store emptyEngine "E1" none none).1.runs.length = 1 := by
  constructor <;> rfl

/-- Claim C3 as amended: backfill on a BatchExport whose destination type
is not registered fails with the unknown-destination error and issues no
request of any kind to the engine (the engine state is untouched), but the
run record created before the registry lookup — carrying the requested
interval — remains in the store, with no rollback. -/
theorem c3_backfill_unregistered (st : Store) (eng : Engine) (id : String)
    (s e : Option String) (be : BatchExport)
    (hfind : (st.batchExports.find? fun b => decide (b.id = id)) = some be)
    (hreg : lookupWorkflow be.destination.dType = none) :
    (backfill_export st eng id s e).2.2
      = .error (.unknownDestinationType be.destination.dType) ∧
    (backfill_export st eng id s e).2.1 = eng ∧
    (backfill_export st eng id s e).1.runs = st.runs ++
      [{ pk := st.nextRunPk, batchExportId := be.id, teamId := none,
         workflowId := none, runId := none, status := none,
         dataIntervalStart := s, dataIntervalEnd := e }] := by
  simp [backfill_export, hfind, hreg]

/-- Claim C3 witness: the amended theorem evaluated at the concrete store
holding the BigQuery export. -/
theorem c3_backfill_unregistered_witness :
    ((c3Store.batchExports.find? fun b => decide (b.id = "E1"))
      = some c3Export) ∧
    lookupWorkflow c3Export.destination.dType = none ∧
    ((backfill_export c3Store emptyEngine "E1" none none).2.2
       = .error (.unknownDestinationType c3Export.destination.dType) ∧
     (backfill_export c3Store emptyEngine "E1" none none).2.1 = emptyEngine ∧
     (backfill_export c3Store emptyEngine "E1" none none).1.runs
       = c3Store.runs ++
         [{ pk := c3Store.nextRunPk, batchExportId := c3Export.id,
            teamId := none, workflowId := none, runId := none,
            status := none, dataIntervalStart := none,
            dataIntervalEnd := none }]) :=
  ⟨rfl, rfl,
   c3_backfill_unregistered c3Store emptyEngine "E1" none none c3Export
     rfl rfl⟩

/-- A BatchExport with the registered destination type S3 and a concrete
destination configuration. -/
def c4Export : BatchExport :=
  { id := "E1", teamId := 1, teamName := "team-1",
    destination :=
      { dId := "D1", dType := "S3",
        config := [("bucket_name", "my-bucket"), ("region", "us-east-1")] },
    paused := false }

/-- A store holding the S3 BatchExport. -/
def c4Store : Store :=
  { teams := [1], batchExports := [c4Export], runs := [], nextRunPk := 0 }

/-- Claim C4 counterexample: with the interval end fixed, the engine state
produced by backfill — including the single issued execution request and
its whole input — is identical for two different interval starts, so the
execution input cannot carry the data_interval_start bound; the input
dataclass has no such field. -/
theorem c4_counterexample :
    (backfill_export c4Store emptyEngine "E1"
        (some "2023-01-01T00:00:00") (some "2023-01-02T00:00:00")).2.1
      = (backfill_export c4Store emptyEngine "E1"
          (some "1999-01-01T00:00:00") (some "2023-01-02T00:00:00")).2.1 ∧
    (backfill_export c4Store emptyEngine "E1"
        (some "2023-01-01T00:00:00")
        (some "2023-01-02T00:00:00")).2.1.executions.length = 1 := by
  constructor <;> rfl

/-- Claim C4 as amended: backfill on a BatchExport with a registered
destination type creates exactly one run record whose
data_interval_start and data_interval_end equal the given bounds, and
issues exactly one direct workflow execution whose input carries the
interval end and the destination configuration — but not the interval
start, which appears only in the run record. -/
theorem c4_backfill_run_and_execution (st : Store) (eng : Engine)
    (id : String) (s e : Option String) (be : BatchExport) (wf : String)
    (hfind : (st.batchExports.find? fun b => decide (b.id = id)) = some be)
    (hreg : lookupWorkflow be.destination.dType = some wf) :
    (backfill_export st eng id s e).1.runs = st.runs ++
      [{ pk := st.nextRunPk, batchExportId := be.id, teamId := none,
         workflowId := none, runId := none, status := none,
         dataIntervalStart := s, dataIntervalEnd := e }] ∧
    (backfill_export st eng id s e).2.1.executions = eng.executions ++
      [{ workflow := wf,
         inputs := { teamIdField := be.id, batchExportId := id,
                     dataIntervalEnd := e,
                     config := be.destination.config },
         taskQueue := TEMPORAL_TASK_QUEUE,
         execId := toString st.nextRunPk }] := by
  simp [backfill_export, hfind, hreg]

/-- Claim C4 witness: the amended theorem evaluated at the concrete S3
store with both bounds given. -/
theorem c4_backfill_run_and_execution_witness :
    ((c4Store.batchExports.find? fun b => decide (b.id = "E1"))
      = some c4Export) ∧
    lookupWorkflow c4Export.destination.dType = some "s3-export" ∧
    ((backfill_export c4Store emptyEngine "E1"
        (some "2023-01-01T00:00:00") (some "2023-01-02T00:00:00")).1.runs
       = c4Store.runs ++
         [{ pk := c4Store.nextRunPk, batchExportId := c4Export.id,
            teamId := none, workflowId := none, runId := none,
            status := none,
            dataIntervalStart := some "2023-01-01T00:00:00",
            dataIntervalEnd := some "2023-01-02T00:00:00" }] ∧
     (backfill_export c4Store emptyEngine "E1"
        (some "2023-01-01T00:00:00")
        (some "2023-01-02T00:00:00")).2.1.executions
       = emptyEngine.executions ++
         [{ workflow := "s3-export",
            inputs := { teamIdField := c4Export.id, batchExportId := "E1",
                        dataIntervalEnd := some "2023-01-02T00:00:00",
                        config := c4Export.destination.config },
            taskQueue := TEMPORAL_TASK_QUEUE,
            execId := toString c4Store.nextRunPk }]) :=
  ⟨rfl, rfl,
   c4_backfill_run_and_execution c4Store emptyEngine "E1"
     (some "2023-01-01T00:00:00") (some "2023-01-02T00:00:00")
     c4Export "s3-export" rfl rfl⟩

/-- Claim C9: on a successful backfill, the execution id of the single
workflow-execution request issued to the engine is the string form of the
primary key of the run record that the call created and returns. -/
theorem c9_execution_id_is_run_pk (st : Store) (eng : Engine) (id : String)
    (s e : Option String) (be : BatchExport) (wf : String)
    (hfind : (st.batchExports.find? fun b => decide (b.id = id)) = some be)
    (hreg : lookupWorkflow be.destination.dType = some wf) :
    ∃ run ex, (backfill_export st eng id s e).2.2 = .ok run ∧
      (backfill_export st eng id s e).2.1.executions
        = eng.executions ++ [ex] ∧
      ex.execId = toString run.pk ∧
      run ∈ (backfill_export st eng id s e).1.runs := by
  refine ⟨{ pk := st.nextRunPk, batchExportId := be.id, teamId := none,
            workflowId := none, runId := none, status := none,
            dataIntervalStart := s, dataIntervalEnd := e },
          { workflow := wf,
            inputs := { teamIdField := be.id, batchExportId := id,
                        dataIntervalEnd := e,
                        config := be.destination.config },
            taskQueue := TEMPORAL_TASK_QUEUE,
            execId := toString st.nextRunPk },
          ?_, ?_, rfl, ?_⟩ <;>
    simp [backfill_export, hfind, hreg]

/-- Claim C9 witness: the theorem evaluated at the concrete S3 store. -/
theorem c9_execution_id_is_run_pk_witness :
    ((c4Store.batchExports.find? fun b => decide (b.id = "E1"))
      = some c4Export) ∧
    lookupWorkflow c4Export.destination.dType = some "s3-export" ∧
    (∃ run ex,
      (backfill_export c4Store emptyEngine "E1" none
        (some "2023-01-02T00:00:00")).2.2 = .ok run ∧
      (backfill_export c4Store emptyEngine "E1" none
        (some "2023-01-02T00:00:00")).2.1.executions
        = emptyEngine.executions ++ [ex] ∧
      ex.execId = toString run.pk ∧
      run ∈ (backfill_export c4Store emptyEngine "E1" none
        (some "2023-01-02T00:00:00")).1.runs) :=
  ⟨rfl, rfl,
   c9_execution_id_is_run_pk c4Store emptyEngine "E1" none
     (some "2023-01-02T00:00:00") c4Export "s3-export" rfl rfl⟩

/-- Appending to a list whose search came up empty searches the tail. -/
theorem find_append_of_none {α : Type} (l1 l2 : List α) (p : α → Bool)
    (h : l1.find? p = none) : (l1 ++ l2).find? p = l2.find? p := by
  induction l1 with
  | nil => rfl
  | cons x xs ih =>
    by_cases hx : p x = true
    · rw [List.find?_cons_of_pos _ hx] at h
      exact absurd h (by simp)
    · rw [List.find?_cons_of_neg _ hx] at h
      rw [List.cons_append, List.find?_cons_of_neg _ hx]
      exact ih h

/-- An unpaused BatchExport with the registered S3 destination, used as a
concrete input for the pause scenario. -/
def c5Export : BatchExport :=
  { id := "E1", teamId := 1, teamName := "team-1",
    destination := { dId := "D1", dType := "S3", config := [] },
    paused := false }

/-- A store holding the unpaused S3 export. -/
def c5Store : Store :=
  { teams := [1], batchExports := [c5Export], runs := [], nextRunPk := 0 }

/-- Claim C5 counterexample: when the engine pause call fails, the local
paused flag is left mutated, and the error pause_batch_export raises is
exactly the engine error value that a bare pause_schedule failure
produces — there is no distinct partial-sync error type: the engine
failure propagates verbatim. -/
theorem c5_counterexample :
    ((pause_batch_export c5Store emptyEngine (.fail "network timeout")
        "E1" none).1.batchExports.map fun be => be.paused) = [true] ∧
    (pause_batch_export c5Store emptyEngine (.fail "network timeout")
        "E1" none).2.2 = some (.engineError "network timeout") ∧
    (pause_schedule emptyEngine (.fail "network timeout") "E1" none).2
      = some (.engineError "network timeout") := by
  exact ⟨rfl, rfl, rfl⟩

/-- Claim C5 as amended: pause_batch_export first sets the local paused
flag to true for the rows with the given id, then issues exactly one
pause request to the engine for a schedule with that same id; when the
engine call fails the local flag mutation remains (no rollback), the
engine state is untouched, and the engine error is raised to the caller
verbatim — surfaced, not swallowed, but with no distinct partial-sync
error type. unpause_batch_export is symmetric with the flag set to
false. -/
theorem c5_pause_two_step (st : Store) (eng : Engine) (id : String)
    (note : Option String) (msg : String) :
    ((pause_batch_export st eng .ok id note).1.batchExports
      = st.batchExports.map fun be =>
          if be.id = id then { be with paused := true } else be) ∧
    (pause_batch_export st eng .ok id note).2.1.pauseRequests
      = eng.pauseRequests ++ [(id, note)] ∧
    (pause_batch_export st eng .ok id note).2.2 = none ∧
    ((pause_batch_export st eng (.fail msg) id note).1.batchExports
      = st.batchExports.map fun be =>
          if be.id = id then { be with paused := true } else be) ∧
    (pause_batch_export st eng (.fail msg) id note).2.1 = eng ∧
    (pause_batch_export st eng (.fail msg) id note).2.2
      = some (.engineError msg) ∧
    ((unpause_batch_export st eng (.fail msg) id note).1.batchExports
      = st.batchExports.map fun be =>
          if be.id = id then { be with paused := false } else be) ∧
    (unpause_batch_export st eng (.fail msg) id note).2.1 = eng ∧
    (unpause_batch_export st eng (.fail msg) id note).2.2
      = some (.engineError msg) ∧
    (unpause_batch_export st eng .ok id note).2.1.unpauseRequests
      = eng.unpauseRequests ++ [(id, note)] := by
  exact ⟨rfl, rfl, rfl, rfl, rfl, rfl, rfl, rfl, rfl, rfl⟩

/-- A BatchExport created already paused, with the registered S3
destination. -/
def c7Export : BatchExport :=
  { id := "E7", teamId := 2, teamName := "team-2",
    destination := { dId := "D7", dType := "S3", config := [] },
    paused := true }

/-- Claim C7: create_batch_export followed by describe_schedule on the
same id returns the schedule registered for it, whose paused state equals
the paused flag the BatchExport definition had when create was called. -/
theorem c7_create_then_describe (eng : Engine) (be : BatchExport)
    (wf : String)
    (hreg : lookupWorkflow be.destination.dType = some wf)
    (hfresh : (eng.schedules.find? fun p => decide (p.1 = be.id)) = none) :
    describe_schedule (create_batch_export eng be).1 be.id
      = Except.ok (scheduleEntryFor be wf) ∧
    (scheduleEntryFor be wf).paused = be.paused := by
  refine ⟨?_, rfl⟩
  simp only [create_batch_export, hreg, create_schedule, hfresh,
    Option.isSome_none, Bool.false_eq_true, if_false, describe_schedule]
  rw [find_append_of_none _ _ _ hfresh]
  rw [List.find?_cons_of_pos _ (by simp)]

/-- Claim C7 witness: the theorem evaluated at the empty engine and the
paused S3 export. -/
theorem c7_create_then_describe_witness :
    lookupWorkflow c7Export.destination.dType = some "s3-export" ∧
    ((emptyEngine.schedules.find? fun p => decide (p.1 = c7Export.id))
      = none) ∧
    (describe_schedule (create_batch_export emptyEngine c7Export).1
        c7Export.id = Except.ok (scheduleEntryFor c7Export "s3-export") ∧
     (scheduleEntryFor c7Export "s3-export").paused = c7Export.paused) :=
  ⟨rfl, rfl, c7_create_then_describe emptyEngine c7Export "s3-export"
    rfl rfl⟩

/-- Claim C8: every Schedule Manager operation addresses the engine by
the BatchExport identifier verbatim — create registers the schedule under
str(batch_export.id) with the action id also str(batch_export.id), and
pause, unpause, delete and describe issue their engine request for
exactly the id they were given. -/
theorem c8_schedule_id_verbatim (st : Store) (eng : Engine) (id : String)
    (note : Option String) (be : BatchExport) (wf : String)
    (hreg : lookupWorkflow be.destination.dType = some wf)
    (hfresh : (eng.schedules.find? fun p => decide (p.1 = be.id)) = none) :
    (create_batch_export eng be).1.schedules
      = eng.schedules ++ [(be.id, scheduleEntryFor be wf)] ∧
    (scheduleEntryFor be wf).actionId = be.id ∧
    (pause_batch_export st eng .ok id note).2.1.pauseRequests
      = eng.pauseRequests ++ [(id, note)] ∧
    (unpause_batch_export st eng .ok id note).2.1.unpauseRequests
      = eng.unpauseRequests ++ [(id, note)] ∧
    (delete_schedule eng id).deleteRequests
      = eng.deleteRequests ++ [id] ∧
    ∀ en, (eng.schedules.find? fun p => decide (p.1 = id)) = some en →
      describe_schedule eng id = Except.ok en.2 := by
  refine ⟨?_, rfl, rfl, rfl, rfl, ?_⟩
  · simp [create_batch_export, hreg, create_schedule, hfresh]
  · intro en hen
    simp [describe_schedule, hen]

/-- Claim C8 witness: the theorem evaluated at the empty engine and the
concrete S3 export. -/
theorem c8_schedule_id_verbatim_witness :
    lookupWorkflow c4Export.destination.dType = some "s3-export" ∧
    ((emptyEngine.schedules.find? fun p => decide (p.1 = c4Export.id))
      = none) ∧
    (create_batch_export emptyEngine c4Export).1.schedules
      = emptyEngine.schedules ++
        [(c4Export.id, scheduleEntryFor c4Export "s3-export")] :=
  ⟨rfl, rfl,
   (c8_schedule_id_verbatim c4Store emptyEngine "E1" none c4Export
     "s3-export" rfl rfl).1⟩

/-- A store holding a team but no BatchExport rows, used as a concrete
input for the missing-export case. -/
def c10Store : Store :=
  { teams := [1], batchExports := [], runs := [], nextRunPk := 0 }

/-- Claim C10: pause and unpause on a batch_export_id matching no
BatchExport row do not fail on the local step — the paused-flag bulk
update silently affects zero rows and its affected-row count is never
checked — the store is unchanged, no error is raised, and the engine
pause or unpause request for that exact id is still issued. -/
theorem c10_pause_unpause_missing_export (st : Store) (eng : Engine)
    (id : String) (note : Option String)
    (h : ∀ be ∈ st.batchExports, ¬ be.id = id) :
    (pause_batch_export st eng .ok id note).1 = st ∧
    (pause_batch_export st eng .ok id note).2.2 = none ∧
    (pause_batch_export st eng .ok id note).2.1.pauseRequests
      = eng.pauseRequests ++ [(id, note)] ∧
    (unpause_batch_export st eng .ok id note).1 = st ∧
    (unpause_batch_export st eng .ok id note).2.2 = none ∧
    (unpause_batch_export st eng .ok id note).2.1.unpauseRequests
      = eng.unpauseRequests ++ [(id, note)] := by
  have hmapT : (st.batchExports.map fun be =>
      if be.id = id then { be with paused := true } else be)
      = st.batchExports :=
    map_eq_self_of _ _ fun a ha => if_neg (h a ha)
  have hmapF : (st.batchExports.map fun be =>
      if be.id = id then { be with paused := false } else be)
      = st.batchExports :=
    map_eq_self_of _ _ fun a ha => if_neg (h a ha)
  refine ⟨?_, rfl, rfl, ?_, rfl, rfl⟩
  · simp only [pause_batch_export, hmapT]
  · simp only [unpause_batch_export, hmapF]

/-- Claim C10 witness: the theorem evaluated at the store with no
BatchExport rows. -/
theorem c10_pause_unpause_missing_export_witness :
    (∀ be ∈ c10Store.batchExports, ¬ be.id = "ghost") ∧
    ((pause_batch_export c10Store emptyEngine .ok "ghost" none).1
       = c10Store ∧
     (pause_batch_export c10Store emptyEngine .ok "ghost" none).2.2
       = none ∧
     (pause_batch_export c10Store emptyEngine .ok "ghost"
        none).2.1.pauseRequests
       = emptyEngine.pauseRequests ++ [("ghost", none)] ∧
     (unpause_batch_export c10Store emptyEngine .ok "ghost" none).1
       = c10Store ∧
     (unpause_batch_export c10Store emptyEngine .ok "ghost" none).2.2
       = none ∧
     (unpause_batch_export c10Store emptyEngine .ok "ghost"
        none).2.1.unpauseRequests
       = emptyEngine.unpauseRequests ++ [("ghost", none)]) :=
  ⟨fun be hbe => absurd hbe (by simp [c10Store]),
   c10_pause_unpause_missing_export c10Store emptyEngine "ghost" none
     (fun be hbe => absurd hbe (by simp [c10Store]))⟩

end BatchExports
